import Mathlib

/- Shallow embedding of the crm-app lead workflow: the campaign registry
   (src/lib/campaignConfig.ts), the status transition operations and the
   callback due-alert ticks (src/unnamed/part_006, the leads page), the
   global callback alert tick (src/components/callbackalerts.tsx), and the
   DNC migration (handleDNC in src/unnamed/part_006).  Timestamps are
   embedded as Int milliseconds; database rows as Lean structures; the per
   tick loops as structural recursions that return the new dedup set and an
   ordered trace of record and emit events. -/

namespace CrmApp

/- String containment, used by the duplicate-phone detection in handleDNC
   (JavaScript msg.includes). -/

def startsWithChars : List Char → List Char → Bool
  | [], _ => true
  | _ :: _, [] => false
  | p :: ps, h :: hs => decide (p = h) && startsWithChars ps hs

def hasSubChars (pat : List Char) : List Char → Bool
  | [] => startsWithChars pat []
  | c :: rest => startsWithChars pat (c :: rest) || hasSubChars pat rest

def strContains (hay pat : String) : Bool :=
  hasSubChars pat.toList hay.toList

/- Charwise lowercase, uppercase and trim, the JavaScript toLowerCase,
   toUpperCase and trim on the ASCII data these operations see here. -/

def lowerStr (s : String) : String := ⟨s.data.map Char.toLower⟩

def upperStr (s : String) : String := ⟨s.data.map Char.toUpper⟩

def trimLeftChars : List Char → List Char
  | [] => []
  | c :: cs => if c.isWhitespace then trimLeftChars cs else c :: cs

def trimStr (s : String) : String :=
  ⟨(trimLeftChars (trimLeftChars s.data).reverse).reverse⟩

/- Campaign registry: src/lib/campaignConfig.ts. -/

inductive StatusTrigger
  | CALLBACK
  | SENT_TO_CLIENT
  | PROSPECT_CLIENT
  | NONE
deriving DecidableEq, Repr

structure CampaignConfig where
  key : String
  label : String
  leadRefPrefix : String
  statusOptions : List String
  activeStatuses : List String
  archiveStatuses : List String
  sourceOptions : List String
  statusTriggers : List (String × StatusTrigger)
deriving DecidableEq, Repr

def eco4Config : CampaignConfig :=
  { key := "ECO4"
    label := "ECO4 / Boiler"
    leadRefPrefix := "ECO"
    statusOptions :=
      ["New Lead", "Prospect Client", "Contacted", "Qualified", "Pending Photos",
       "Sent To Client", "Looking for home", "Callback", "Boiler Above 86%",
       "No Benefits", "Dead Number", "Not Interested", "Voicemail", "No Answer",
       "VM 5+ days", "NA 5+ days"]
    activeStatuses :=
      ["New Lead", "Prospect Client", "Contacted", "Qualified", "Pending Photos",
       "Sent To Client", "Looking for home", "Callback", "Voicemail", "No Answer"]
    archiveStatuses :=
      ["Boiler Above 86%", "No Benefits", "Dead Number", "Not Interested",
       "VM 5+ days", "NA 5+ days"]
    sourceOptions := ["Instagram", "Website", "Referral", "WhatsApp", "Facebook", "TikTok", "Other"]
    statusTriggers :=
      [("Callback", StatusTrigger.CALLBACK),
       ("Sent To Client", StatusTrigger.SENT_TO_CLIENT),
       ("Prospect Client", StatusTrigger.PROSPECT_CLIENT)] }

def solarConfig : CampaignConfig :=
  { key := "SOLAR"
    label := "Solar"
    leadRefPrefix := "SOL"
    statusOptions :=
      ["New Lead", "Contacted", "Qualified", "Survey Booked", "Quote Sent",
       "Won", "Lost", "Callback", "Voicemail", "No Answer", "Not Interested",
       "Dead Number"]
    activeStatuses :=
      ["New Lead", "Contacted", "Qualified", "Survey Booked", "Quote Sent",
       "Callback", "Voicemail", "No Answer"]
    archiveStatuses := ["Won", "Lost", "Not Interested", "Dead Number"]
    sourceOptions := ["Meta Ads", "Website", "Referral", "TikTok", "Other"]
    statusTriggers := [("Callback", StatusTrigger.CALLBACK)] }

def pcpConfig : CampaignConfig :=
  { key := "PCP"
    label := "PCP Claims"
    leadRefPrefix := "PCP"
    statusOptions :=
      ["New Lead", "Contacted", "Eligible", "Not Eligible", "Forms Sent",
       "Signed", "Submitted", "Paid", "Callback", "Voicemail", "No Answer",
       "Dead Number", "Not Interested"]
    activeStatuses :=
      ["New Lead", "Contacted", "Eligible", "Forms Sent", "Signed",
       "Submitted", "Callback", "Voicemail", "No Answer"]
    archiveStatuses := ["Not Eligible", "Paid", "Dead Number", "Not Interested"]
    sourceOptions := ["Meta Ads", "Google", "Data", "Referral", "Other"]
    statusTriggers := [("Callback", StatusTrigger.CALLBACK)] }

def dieselConfig : CampaignConfig :=
  { key := "DIESEL"
    label := "Diesel Emissions"
    leadRefPrefix := "DSL"
    statusOptions :=
      ["New Lead", "Contacted", "Qualified", "Docs Requested", "Submitted",
       "Paid", "Callback", "Not Interested", "Dead Number"]
    activeStatuses :=
      ["New Lead", "Contacted", "Qualified", "Docs Requested", "Submitted", "Callback"]
    archiveStatuses := ["Paid", "Not Interested", "Dead Number"]
    sourceOptions := ["Meta Ads", "Website", "Referral", "Other"]
    statusTriggers := [("Callback", StatusTrigger.CALLBACK)] }

def CAMPAIGNS : List (String × CampaignConfig) :=
  [("ECO4", eco4Config), ("SOLAR", solarConfig), ("PCP", pcpConfig), ("DIESEL", dieselConfig)]

def campaignKeys : List String := CAMPAIGNS.map Prod.fst

/- cfg.statusTriggers[nextStatus] with fallback NONE, mirroring
   cfg.statusTriggers?.[nextStatus] in updateLeadStatusQuick. -/
def triggerFor (cfg : CampaignConfig) (s : String) : StatusTrigger :=
  match cfg.statusTriggers.lookup s with
  | some t => t
  | none => StatusTrigger.NONE

/- Campaign key resolution on the leads page (src/unnamed/part_006):
   rawCampaign = searchParams.get("campaign") or "ECO4" when absent or empty;
   campaign = rawCampaign when it is a key of CAMPAIGNS, else "ECO4". -/
def resolveCampaignKey (qp : Option String) : String :=
  let raw : String :=
    match qp with
    | none => "ECO4"
    | some s => if s = "" then "ECO4" else s
  if (CAMPAIGNS.lookup raw).isSome then raw else "ECO4"

def leadsPageCfg (qp : Option String) : CampaignConfig :=
  (CAMPAIGNS.lookup (resolveCampaignKey qp)).getD eco4Config

/- cleanCampaign from src/app/leads/import/ImportLeadsClient.tsx: trim and
   uppercase the raw value, keep it when it is a registered key, otherwise
   return the caller supplied fallback. -/
def cleanCampaign (v : String) (fallback : String) : String :=
  let raw := upperStr (trimStr v)
  if raw ∈ campaignKeys then raw else fallback

/- Lead rows of the leads table (src/unnamed/part_006 type Lead).
   Timestamps are Int milliseconds since epoch. -/

structure Lead where
  id : String
  campaign : Option String
  lead_ref : Option String
  full_name : String
  phone : String
  email : String
  status : String
  source : String
  assigned_to : Option String
  created_at : Int
  notes : Option String
  callback_at : Option Int
  callback_note : Option String
  sent_by_name : Option String
  sent_to_client : Option String
  prospect_by_name : Option String
deriving DecidableEq, Repr

inductive TransitionError
  | missingCallbackTime
  | missingAttribution
deriving DecidableEq, Repr

/- saveCallbackForLead (src/unnamed/part_006): when the callback datetime
   input does not parse (localInputToIso returned null, embedded as cbWhen
   being none) the operation alerts and returns without writing; otherwise
   it updates the row to status Callback with the timestamp and the trimmed
   note (empty note stored as null). -/

def normNote (note : String) : Option String :=
  if trimStr note = "" then none else some (trimStr note)

def cbApply (iso : Int) (note : String) (l : Lead) : Lead :=
  { l with status := "Callback", callback_at := some iso, callback_note := normNote note }

def saveCallbackForLead (st : List Lead) (id : String) (cbWhen : Option Int)
    (cbNote : String) : List Lead × Option TransitionError :=
  match cbWhen with
  | none => (st, some TransitionError.missingCallbackTime)
  | some iso =>
      (st.map fun l => if l.id = id then cbApply iso cbNote l else l, none)

/- saveSentProspect (src/unnamed/part_006): requires a non-empty trimmed
   staff name, and in SENT mode also a non-empty trimmed sent-to value;
   then writes only the status and the attribution fields of the chosen
   mode. -/

inductive SpMode
  | SENT
  | PROSPECT
deriving DecidableEq, Repr

def spApply (mode : SpMode) (staff sentTo : String) (l : Lead) : Lead :=
  match mode with
  | SpMode.SENT =>
      { l with status := "Sent To Client", sent_by_name := some staff, sent_to_client := some sentTo }
  | SpMode.PROSPECT =>
      { l with status := "Prospect Client", prospect_by_name := some staff }

def saveSentProspect (st : List Lead) (id : String) (mode : SpMode)
    (spStaff spSentTo : String) : List Lead × Option TransitionError :=
  let staff := trimStr spStaff
  let sentTo := trimStr spSentTo
  if staff = "" then (st, some TransitionError.missingAttribution)
  else if mode = SpMode.SENT ∧ sentTo = "" then (st, some TransitionError.missingAttribution)
  else (st.map fun l => if l.id = id then spApply mode staff sentTo l else l, none)

/- updateLeadStatusQuick (src/unnamed/part_006): for a status whose trigger
   is CALLBACK, SENT_TO_CLIENT or PROSPECT_CLIENT it only opens the
   corresponding modal and performs no store write; otherwise it writes the
   new status, clearing callback_at and callback_note when the lead leaves
   Callback (case-insensitive comparison, as in the source). -/

inductive QuickAction
  | openedCallbackModal
  | openedSentModal
  | openedProspectModal
  | wrote
deriving DecidableEq, Repr

def quickApply (next : String) (leaving : Bool) (l : Lead) : Lead :=
  if leaving then { l with status := next, callback_at := none, callback_note := none }
  else { l with status := next }

def updateLeadStatusQuick (cfg : CampaignConfig) (st : List Lead) (lead : Lead)
    (next : String) : QuickAction × List Lead :=
  match triggerFor cfg next with
  | StatusTrigger.CALLBACK => (QuickAction.openedCallbackModal, st)
  | StatusTrigger.SENT_TO_CLIENT => (QuickAction.openedSentModal, st)
  | StatusTrigger.PROSPECT_CLIENT => (QuickAction.openedProspectModal, st)
  | StatusTrigger.NONE =>
      let leaving : Bool := decide (lowerStr lead.status = "callback" ∧ ¬ lowerStr next = "callback")
      (QuickAction.wrote, st.map fun x => if x.id = lead.id then quickApply next leaving x else x)

/- Callback due-alert ticks.  Both ticks keep a set of dedup keys
   (id ++ ":" ++ timestamp, as the template literal in the source) and
   return, besides the new key set, the ordered trace of record and emit
   events of the tick; both loops stop after the first emission. -/

inductive AlertEv
  | record (key : String)
  | emit (key : String)
deriving DecidableEq, Repr

def dedupKey (id : String) (t : Int) : String := id ++ ":" ++ toString t

def staleCutoffMs : Int := 24 * 60 * 60 * 1000

def cbTime (l : Lead) : Int := l.callback_at.getD 0

def insertByTime (x : Lead) : List Lead → List Lead
  | [] => [x]
  | y :: ys => if cbTime x ≤ cbTime y then x :: y :: ys else y :: insertByTime x ys

def sortByTime : List Lead → List Lead
  | [] => []
  | x :: xs => insertByTime x (sortByTime xs)

/- Global CallbackAlerts tick (src/components/callbackalerts.tsx).  The
   query keeps rows with status exactly Callback, a present callback_at and
   callback_at at most now + dueWindow, sorted ascending, capped at 25.
   The loop skips rows older than 24 hours behind now, skips already
   alerted keys, and otherwise records the key and emits once, stopping. -/

def caCandidate (now w : Int) (l : Lead) : Bool :=
  decide (l.status = "Callback") &&
    (match l.callback_at with
     | none => false
     | some t => decide (t ≤ now + w))

def caQuery (now w : Int) (leads : List Lead) : List Lead :=
  (sortByTime (leads.filter (caCandidate now w))).take 25

def caProcess (now : Int) (alerted : List String) : List Lead → List String × List AlertEv
  | [] => (alerted, [])
  | l :: rest =>
      match l.callback_at with
      | none => caProcess now alerted rest
      | some t =>
          if t < now - staleCutoffMs then caProcess now alerted rest
          else
            let key := dedupKey l.id t
            if key ∈ alerted then caProcess now alerted rest
            else (key :: alerted, [AlertEv.record key, AlertEv.emit key])

def caTick (now w : Int) (alerted : List String) (leads : List Lead) :
    List String × List AlertEv :=
  caProcess now alerted (caQuery now w leads)

/- A run of consecutive CallbackAlerts ticks over the same lead list,
   threading the dedup set; yields the event trace of every tick. -/
def caRunEvents (w : Int) : List Int → List String → List Lead → List (List AlertEv)
  | [], _, _ => []
  | n :: rest, alerted, leads =>
      let r := caTick n w alerted leads
      r.2 :: caRunEvents w rest r.1 leads

/- Inline leads-page tick (src/unnamed/part_006): same shape but with a
   case-insensitive status comparison, a fixed 60 second window, no result
   cap and, notably, no stale cutoff. -/

def lpWindowMs : Int := 60 * 1000

def lpCandidate (now : Int) (l : Lead) : Bool :=
  decide (lowerStr l.status = "callback") &&
    (match l.callback_at with
     | none => false
     | some t => decide (t ≤ now + lpWindowMs))

def lpQuery (now : Int) (leads : List Lead) : List Lead :=
  sortByTime (leads.filter (lpCandidate now))

def lpProcess (alerted : List String) : List Lead → List String × List AlertEv
  | [] => (alerted, [])
  | l :: rest =>
      match l.callback_at with
      | none => lpProcess alerted rest
      | some t =>
          let key := dedupKey l.id t
          if key ∈ alerted then lpProcess alerted rest
          else (key :: alerted, [AlertEv.record key, AlertEv.emit key])

def lpTick (now : Int) (alerted : List String) (leads : List Lead) :
    List String × List AlertEv :=
  lpProcess alerted (lpQuery now leads)

def isEmit : AlertEv → Bool
  | AlertEv.emit _ => true
  | AlertEv.record _ => false

def emitCount (evs : List AlertEv) : Nat := (evs.filter isEmit).length

/- DNC migration (handleDNC in src/unnamed/part_006).  The backlog insert
   and the lead delete are external store calls; their outcomes are passed
   in as optional error messages.  A failed insert whose message matches
   the duplicate-phone patterns is treated as non-fatal and the delete
   still runs; any other insert failure aborts before the delete; a failed
   delete leaves the state as it stood after the insert. -/

structure BacklogEntry where
  lead_id : String
  full_name : String
  phone : String
  email : String
  lead_ref : Option String
  source : String
  assigned_to : Option String
  status : String
  notes : Option String
  reason : String
  created_by : Option String
deriving DecidableEq, Repr

def mkBacklogEntry (l : Lead) (reason : String) (createdBy : Option String) : BacklogEntry :=
  { lead_id := l.id, full_name := l.full_name, phone := l.phone, email := l.email
    lead_ref := l.lead_ref, source := l.source, assigned_to := l.assigned_to
    status := l.status, notes := l.notes, reason := reason, created_by := createdBy }

def isDuplicatePhone (msg : String) : Bool :=
  let m := lowerStr msg
  strContains m "duplicate key" || strContains m "already exists" ||
    strContains m "unique" || strContains m "dnc_backlog_phone_unique"

structure DncState where
  leads : List Lead
  backlog : List BacklogEntry
deriving DecidableEq, Repr

inductive DncResult
  | success
  | insertFailed (msg : String)
  | deleteFailed (msg : String)
deriving DecidableEq, Repr

def dncDelete (delErr : Option String) (st : DncState) (l : Lead) : DncState × DncResult :=
  match delErr with
  | some d => (st, DncResult.deleteFailed d)
  | none => ({ st with leads := st.leads.filter (fun x => decide (¬ x.id = l.id)) }, DncResult.success)

def handleDNC (insErr delErr : Option String) (st : DncState) (l : Lead)
    (reason : String) (createdBy : Option String) : DncState × DncResult :=
  match insErr with
  | some msg =>
      if isDuplicatePhone msg then dncDelete delErr st l
      else (st, DncResult.insertFailed msg)
  | none =>
      dncDelete delErr { st with backlog := st.backlog ++ [mkBacklogEntry l reason createdBy] } l

/- Sample rows used by the concrete counterexamples and witnesses. -/

def cexLead : Lead :=
  { id := "L1", campaign := some "ECO4", lead_ref := none, full_name := "Nina Doe"
    phone := "0700111222", email := "nina@example.com", status := "Callback"
    source := "Other", assigned_to := none, created_at := 0, notes := none
    callback_at := some 5, callback_note := some "ring after lunch"
    sent_by_name := none, sent_to_client := none, prospect_by_name := none }

def cexLeadAfterSp : Lead :=
  { cexLead with status := "Sent To Client", sent_by_name := some "Ann", sent_to_client := some "Acme" }

def dncStW : DncState := { leads := [cexLead], backlog := [] }

def staleLead : Lead :=
  { cexLead with id := "L9", callback_at := some 0, callback_note := none }

def freshLead : Lead :=
  { cexLead with id := "L2", callback_at := some 100000, callback_note := none }

/-- Claim C8: in the static campaign registry, every status listed in
activeStatuses and in archiveStatuses belongs to that campaign status
vocabulary, and the active and archive sets are disjoint. -/
theorem c8_registry_wellformed :
    ∀ p ∈ CAMPAIGNS,
      (∀ s ∈ (Prod.snd p).activeStatuses, s ∈ (Prod.snd p).statusOptions) ∧
      (∀ s ∈ (Prod.snd p).archiveStatuses, s ∈ (Prod.snd p).statusOptions) ∧
      (∀ s ∈ (Prod.snd p).activeStatuses, s ∉ (Prod.snd p).archiveStatuses) := by
  decide

/-- Witness for C8 at the ECO4 campaign. -/
theorem c8_registry_wellformed_witness :
    ("ECO4", eco4Config) ∈ CAMPAIGNS ∧
      ((∀ s ∈ eco4Config.activeStatuses, s ∈ eco4Config.statusOptions) ∧
       (∀ s ∈ eco4Config.archiveStatuses, s ∈ eco4Config.statusOptions) ∧
       (∀ s ∈ eco4Config.activeStatuses, s ∉ eco4Config.archiveStatuses)) :=
  ⟨by decide, c8_registry_wellformed ("ECO4", eco4Config) (by decide)⟩

/-- Counterexample for C1: saveSentProspect moves a lead whose status is
Callback with a non-null callback_at to status Sent To Client without
clearing callback_at or callback_note, so the transition out of Callback
does not clear the callback fields and the invariant that callback_at is
non-null only in status Callback is broken. -/
theorem c1_counterexample :
    saveSentProspect [cexLead] "L1" SpMode.SENT "Ann" "Acme" = ([cexLeadAfterSp], none) ∧
    cexLead.status = "Callback" ∧
    ¬ cexLeadAfterSp.status = "Callback" ∧
    cexLeadAfterSp.callback_at = some 5 ∧
    cexLeadAfterSp.callback_note = some "ring after lunch" := by
  decide

/-- Claim C1 amended: the quick status update with a NONE trigger does
clear callback_at and callback_note whenever the lead leaves Callback,
but the modal save path saveSentProspect does not, so only the direct
quick-update write preserves the callback invariant. -/
theorem c1_amended_quick_none_clears (cfg : CampaignConfig) (lead : Lead) (next : String)
    (h1 : triggerFor cfg next = StatusTrigger.NONE)
    (h2 : lowerStr lead.status = "callback")
    (h3 : ¬ lowerStr next = "callback") :
    updateLeadStatusQuick cfg [lead] lead next =
      (QuickAction.wrote, [{ lead with status := next, callback_at := none, callback_note := none }]) := by
  simp [updateLeadStatusQuick, h1, quickApply, h2, h3]

/-- Witness for the amended C1 at the ECO4 campaign, target Contacted. -/
theorem c1_amended_witness :
    (triggerFor eco4Config "Contacted" = StatusTrigger.NONE ∧
     lowerStr cexLead.status = "callback" ∧ ¬ (lowerStr "Contacted" = "callback")) ∧
    updateLeadStatusQuick eco4Config [cexLead] cexLead "Contacted" =
      (QuickAction.wrote, [{ cexLead with status := "Contacted", callback_at := none, callback_note := none }]) :=
  ⟨by decide,
   c1_amended_quick_none_clears eco4Config cexLead "Contacted" (by decide) (by decide) (by decide)⟩

/-- Counterexample for C2: an unknown campaign key does not fail the
request; the leads page silently resolves it to the ECO4 configuration and
the CSV import cleanCampaign silently returns the caller supplied
fallback. -/
theorem c2_counterexample :
    CAMPAIGNS.lookup "BOGUS" = none ∧
    resolveCampaignKey (some "BOGUS") = "ECO4" ∧
    leadsPageCfg (some "BOGUS") = eco4Config ∧
    cleanCampaign "bogus" "SOLAR" = "SOLAR" := by
  decide

/-- Claim C2 amended: for every campaign key not present in the registry,
the leads page resolves it to the default key ECO4 and uses the ECO4
configuration, and cleanCampaign returns its fallback; no failure is
raised. -/
theorem c2_amended_silent_fallback (s fb : String)
    (h1 : CAMPAIGNS.lookup s = none)
    (h2 : upperStr (trimStr s) ∉ campaignKeys) :
    resolveCampaignKey (some s) = "ECO4" ∧
    leadsPageCfg (some s) = eco4Config ∧
    cleanCampaign s fb = fb := by
  have hres : resolveCampaignKey (some s) = "ECO4" := by
    by_cases he : s = ""
    · simp [resolveCampaignKey, he]
    · simp [resolveCampaignKey, he, h1]
  refine ⟨hres, ?_, ?_⟩
  · rw [leadsPageCfg, hres]; rfl
  · simp [cleanCampaign, h2]

/-- Witness for the amended C2 at the unknown key BOGUS. -/
theorem c2_amended_witness :
    (CAMPAIGNS.lookup "BOGUS" = none ∧ upperStr (trimStr "BOGUS") ∉ campaignKeys) ∧
    (resolveCampaignKey (some "BOGUS") = "ECO4" ∧
     leadsPageCfg (some "BOGUS") = eco4Config ∧
     cleanCampaign "BOGUS" "SOLAR" = "SOLAR") :=
  ⟨⟨by decide, by decide⟩,
   c2_amended_silent_fallback "BOGUS" "SOLAR" (by decide) (by decide)⟩

/-- Claim C6: requesting a transition to a status whose trigger is
CALLBACK opens the callback modal without writing, and the subsequent save
without a parseable callback timestamp fails with missingCallbackTime and
returns the store unchanged. -/
theorem c6_missing_callback_time (cfg : CampaignConfig) (st : List Lead) (lead : Lead)
    (next : String) (note : String)
    (h : triggerFor cfg next = StatusTrigger.CALLBACK) :
    updateLeadStatusQuick cfg st lead next = (QuickAction.openedCallbackModal, st) ∧
    saveCallbackForLead st lead.id none note = (st, some TransitionError.missingCallbackTime) := by
  constructor
  · simp [updateLeadStatusQuick, h]
  · rfl

/-- Witness for C6 at the ECO4 campaign, target Callback. -/
theorem c6_missing_callback_time_witness :
    triggerFor eco4Config "Callback" = StatusTrigger.CALLBACK ∧
    (updateLeadStatusQuick eco4Config [cexLead] cexLead "Callback" = (QuickAction.openedCallbackModal, [cexLead]) ∧
     saveCallbackForLead [cexLead] cexLead.id none "" = ([cexLead], some TransitionError.missingCallbackTime)) :=
  ⟨by decide, c6_missing_callback_time eco4Config [cexLead] cexLead "Callback" "" (by decide)⟩

/-- Claim C9: saveSentProspect in SENT mode writes only the status, the
sent_by_name and the sent_to_client fields and leaves prospect_by_name and
the callback fields unchanged, while PROSPECT mode writes only the status
and prospect_by_name and leaves sent_by_name and sent_to_client
unchanged. -/
theorem c9_attribution_frame (st : List Lead) (id staff sentTo : String)
    (h1 : ¬ trimStr staff = "") (h2 : ¬ trimStr sentTo = "") :
    saveSentProspect st id SpMode.SENT staff sentTo =
      (st.map fun l => if l.id = id then spApply SpMode.SENT (trimStr staff) (trimStr sentTo) l else l, none) ∧
    saveSentProspect st id SpMode.PROSPECT staff sentTo =
      (st.map fun l => if l.id = id then spApply SpMode.PROSPECT (trimStr staff) (trimStr sentTo) l else l, none) ∧
    (∀ l : Lead,
      (spApply SpMode.SENT (trimStr staff) (trimStr sentTo) l).prospect_by_name = l.prospect_by_name ∧
      (spApply SpMode.SENT (trimStr staff) (trimStr sentTo) l).sent_by_name = some (trimStr staff) ∧
      (spApply SpMode.SENT (trimStr staff) (trimStr sentTo) l).sent_to_client = some (trimStr sentTo) ∧
      (spApply SpMode.SENT (trimStr staff) (trimStr sentTo) l).status = "Sent To Client" ∧
      (spApply SpMode.SENT (trimStr staff) (trimStr sentTo) l).callback_at = l.callback_at ∧
      (spApply SpMode.SENT (trimStr staff) (trimStr sentTo) l).callback_note = l.callback_note ∧
      (spApply SpMode.PROSPECT (trimStr staff) (trimStr sentTo) l).sent_by_name = l.sent_by_name ∧
      (spApply SpMode.PROSPECT (trimStr staff) (trimStr sentTo) l).sent_to_client = l.sent_to_client ∧
      (spApply SpMode.PROSPECT (trimStr staff) (trimStr sentTo) l).prospect_by_name = some (trimStr staff) ∧
      (spApply SpMode.PROSPECT (trimStr staff) (trimStr sentTo) l).status = "Prospect Client" ∧
      (spApply SpMode.PROSPECT (trimStr staff) (trimStr sentTo) l).callback_at = l.callback_at ∧
      (spApply SpMode.PROSPECT (trimStr staff) (trimStr sentTo) l).callback_note = l.callback_note) := by
  refine ⟨?_, ?_, ?_⟩
  · simp [saveSentProspect, h1, h2]
  · simp [saveSentProspect, h1]
  · intro l
    simp [spApply]

/-- Witness for C9 on a single-row store. -/
theorem c9_attribution_frame_witness :
    (¬ (trimStr "Ann" = "") ∧ ¬ (trimStr "Acme" = "")) ∧
    (saveSentProspect [cexLead] "L1" SpMode.SENT "Ann" "Acme" =
       ([cexLead].map fun l => if l.id = "L1" then spApply SpMode.SENT (trimStr "Ann") (trimStr "Acme") l else l, none) ∧
     saveSentProspect [cexLead] "L1" SpMode.PROSPECT "Ann" "Acme" =
       ([cexLead].map fun l => if l.id = "L1" then spApply SpMode.PROSPECT (trimStr "Ann") (trimStr "Acme") l else l, none) ∧
     (∀ l : Lead,
       (spApply SpMode.SENT (trimStr "Ann") (trimStr "Acme") l).prospect_by_name = l.prospect_by_name ∧
       (spApply SpMode.SENT (trimStr "Ann") (trimStr "Acme") l).sent_by_name = some (trimStr "Ann") ∧
       (spApply SpMode.SENT (trimStr "Ann") (trimStr "Acme") l).sent_to_client = some (trimStr "Acme") ∧
       (spApply SpMode.SENT (trimStr "Ann") (trimStr "Acme") l).status = "Sent To Client" ∧
       (spApply SpMode.SENT (trimStr "Ann") (trimStr "Acme") l).callback_at = l.callback_at ∧
       (spApply SpMode.SENT (trimStr "Ann") (trimStr "Acme") l).callback_note = l.callback_note ∧
       (spApply SpMode.PROSPECT (trimStr "Ann") (trimStr "Acme") l).sent_by_name = l.sent_by_name ∧
       (spApply SpMode.PROSPECT (trimStr "Ann") (trimStr "Acme") l).sent_to_client = l.sent_to_client ∧
       (spApply SpMode.PROSPECT (trimStr "Ann") (trimStr "Acme") l).prospect_by_name = some (trimStr "Ann") ∧
       (spApply SpMode.PROSPECT (trimStr "Ann") (trimStr "Acme") l).status = "Prospect Client" ∧
       (spApply SpMode.PROSPECT (trimStr "Ann") (trimStr "Acme") l).callback_at = l.callback_at ∧
       (spApply SpMode.PROSPECT (trimStr "Ann") (trimStr "Acme") l).callback_note = l.callback_note)) :=
  ⟨⟨by decide, by decide⟩, c9_attribution_frame [cexLead] "L1" "Ann" "Acme" (by decide) (by decide)⟩

/-- Claim C10: for a target status whose trigger is CALLBACK,
SENT_TO_CLIENT or PROSPECT_CLIENT the quick status update only opens the
matching modal and returns the store unchanged; no write action occurs. -/
theorem c10_quick_modal_no_write (cfg : CampaignConfig) (st : List Lead) (lead : Lead)
    (next : String)
    (h : triggerFor cfg next = StatusTrigger.CALLBACK ∨
         triggerFor cfg next = StatusTrigger.SENT_TO_CLIENT ∨
         triggerFor cfg next = StatusTrigger.PROSPECT_CLIENT) :
    (updateLeadStatusQuick cfg st lead next).2 = st ∧
    ¬ (updateLeadStatusQuick cfg st lead next).1 = QuickAction.wrote := by
  rcases h with h | h | h <;> simp [updateLeadStatusQuick, h]

/-- Witness for C10 at the ECO4 campaign, target Sent To Client. -/
theorem c10_quick_modal_no_write_witness :
    (triggerFor eco4Config "Sent To Client" = StatusTrigger.CALLBACK ∨
     triggerFor eco4Config "Sent To Client" = StatusTrigger.SENT_TO_CLIENT ∨
     triggerFor eco4Config "Sent To Client" = StatusTrigger.PROSPECT_CLIENT) ∧
    ((updateLeadStatusQuick eco4Config [cexLead] cexLead "Sent To Client").2 = [cexLead] ∧
     ¬ (updateLeadStatusQuick eco4Config [cexLead] cexLead "Sent To Client").1 = QuickAction.wrote) :=
  ⟨Or.inr (Or.inl (by decide)),
   c10_quick_modal_no_write eco4Config [cexLead] cexLead "Sent To Client"
     (Or.inr (Or.inl (by decide)))⟩

/-- Claim C7: in the DNC migration, an insert failure recognised as a
duplicate phone uniqueness violation is non-fatal and the delete still
runs; any other insert failure aborts with insertFailed before the delete
so the state is unchanged; a delete failure yields deleteFailed, which is
a different constructor from insertFailed, and changes nothing beyond the
already performed backlog insert. -/
theorem c7_dnc_failure_semantics (st : DncState) (l : Lead) (reason : String)
    (cb : Option String) (msg d : String) :
    (isDuplicatePhone msg = true →
      handleDNC (some msg) none st l reason cb =
        ({ st with leads := st.leads.filter (fun x => decide (¬ x.id = l.id)) }, DncResult.success)) ∧
    (isDuplicatePhone msg = false →
      ∀ delErr, handleDNC (some msg) delErr st l reason cb = (st, DncResult.insertFailed msg)) ∧
    handleDNC none (some d) st l reason cb =
      ({ st with backlog := st.backlog ++ [mkBacklogEntry l reason cb] }, DncResult.deleteFailed d) ∧
    (∀ m1 d1 : String, ¬ DncResult.deleteFailed d1 = DncResult.insertFailed m1) := by
  refine ⟨?_, ?_, ?_, ?_⟩
  · intro h
    simp [handleDNC, h, dncDelete]
  · intro h delErr
    simp [handleDNC, h]
  · rfl
  · intro m1 d1 hcontra
    exact DncResult.noConfusion hcontra

/-- Witness for C7: a duplicate key message is non-fatal and the lead is
still removed. -/
theorem c7_dnc_failure_semantics_witness :
    isDuplicatePhone "duplicate key value violates unique constraint" = true ∧
    handleDNC (some "duplicate key value violates unique constraint") none dncStW cexLead "Do Not Call" none =
      ({ dncStW with leads := dncStW.leads.filter (fun x => decide (¬ x.id = cexLead.id)) }, DncResult.success) :=
  ⟨by decide,
   (c7_dnc_failure_semantics dncStW cexLead "Do Not Call" none
      "duplicate key value violates unique constraint" "boom").1 (by decide)⟩

/- Helper lemmas about the tick embeddings, shared by the scheduler
   claims. -/

theorem mem_insertByTime {x y : Lead} {ys : List Lead} :
    x ∈ insertByTime y ys ↔ x = y ∨ x ∈ ys := by
  induction ys with
  | nil => simp [insertByTime]
  | cons z zs ih =>
    by_cases h : cbTime y ≤ cbTime z
    · simp [insertByTime, h]
    · simp [insertByTime, h, ih]
      tauto

theorem mem_sortByTime {x : Lead} {xs : List Lead} :
    x ∈ sortByTime xs ↔ x ∈ xs := by
  induction xs with
  | nil => simp [sortByTime]
  | cons y ys ih => simp [sortByTime, mem_insertByTime, ih]

theorem mem_caQuery {now w : Int} {leads : List Lead} {l : Lead}
    (h : l ∈ caQuery now w leads) : l ∈ leads ∧ caCandidate now w l = true := by
  have h1 : l ∈ sortByTime (leads.filter (caCandidate now w)) := List.mem_of_mem_take h
  have h2 : l ∈ leads.filter (caCandidate now w) := mem_sortByTime.mp h1
  exact List.mem_filter.mp h2

theorem caProcess_sound (now : Int) (alerted : List String) (rows : List Lead)
    (ev : AlertEv) (hev : ev ∈ (caProcess now alerted rows).2) :
    ∃ l t, l ∈ rows ∧ l.callback_at = some t ∧ ¬ t < now - staleCutoffMs ∧
      dedupKey l.id t ∉ alerted ∧
      (ev = AlertEv.record (dedupKey l.id t) ∨ ev = AlertEv.emit (dedupKey l.id t)) := by
  induction rows generalizing alerted with
  | nil => simp [caProcess] at hev
  | cons l rest ih =>
    cases hcb : l.callback_at with
    | none =>
      simp only [caProcess, hcb] at hev
      obtain ⟨l2, t2, hm, h⟩ := ih alerted hev
      exact ⟨l2, t2, List.mem_cons_of_mem _ hm, h⟩
    | some t =>
      simp only [caProcess, hcb] at hev
      by_cases hst : t < now - staleCutoffMs
      · rw [if_pos hst] at hev
        obtain ⟨l2, t2, hm, h⟩ := ih alerted hev
        exact ⟨l2, t2, List.mem_cons_of_mem _ hm, h⟩
      · rw [if_neg hst] at hev
        by_cases hmem : dedupKey l.id t ∈ alerted
        · rw [if_pos hmem] at hev
          obtain ⟨l2, t2, hm, h⟩ := ih alerted hev
          exact ⟨l2, t2, List.mem_cons_of_mem _ hm, h⟩
        · rw [if_neg hmem] at hev
          simp only [List.mem_cons, List.mem_singleton, List.not_mem_nil, or_false] at hev
          exact ⟨l, t, List.mem_cons_self l rest, hcb, hst, hmem, hev⟩

theorem caProcess_shape (now : Int) (alerted : List String) (rows : List Lead) :
    (caProcess now alerted rows).2 = [] ∨
    ∃ k, (caProcess now alerted rows).2 = [AlertEv.record k, AlertEv.emit k] := by
  induction rows generalizing alerted with
  | nil => exact Or.inl rfl
  | cons l rest ih =>
    cases hcb : l.callback_at with
    | none => simp only [caProcess, hcb]; exact ih alerted
    | some t =>
      simp only [caProcess, hcb]
      by_cases hst : t < now - staleCutoffMs
      · rw [if_pos hst]; exact ih alerted
      · rw [if_neg hst]
        by_cases hmem : dedupKey l.id t ∈ alerted
        · rw [if_pos hmem]; exact ih alerted
        · rw [if_neg hmem]; exact Or.inr ⟨dedupKey l.id t, rfl⟩

theorem lpProcess_shape (alerted : List String) (rows : List Lead) :
    (lpProcess alerted rows).2 = [] ∨
    ∃ k, (lpProcess alerted rows).2 = [AlertEv.record k, AlertEv.emit k] := by
  induction rows generalizing alerted with
  | nil => exact Or.inl rfl
  | cons l rest ih =>
    cases hcb : l.callback_at with
    | none => simp only [lpProcess, hcb]; exact ih alerted
    | some t =>
      simp only [lpProcess, hcb]
      by_cases hmem : dedupKey l.id t ∈ alerted
      · rw [if_pos hmem]; exact ih alerted
      · rw [if_neg hmem]; exact Or.inr ⟨dedupKey l.id t, rfl⟩

theorem emitCount_of_shape {evs : List AlertEv}
    (h : evs = [] ∨ ∃ k, evs = [AlertEv.record k, AlertEv.emit k]) :
    emitCount evs ≤ 1 := by
  rcases h with h | ⟨k, h⟩ <;> subst h <;> simp [emitCount, isEmit]

theorem caProcess_single (now : Int) (a : List String) (l : Lead) (T : Int)
    (hcb : l.callback_at = some T) :
    caProcess now a [l] =
      if T < now - staleCutoffMs then (a, [])
      else if dedupKey l.id T ∈ a then (a, [])
      else (dedupKey l.id T :: a,
            [AlertEv.record (dedupKey l.id T), AlertEv.emit (dedupKey l.id T)]) := by
  simp only [caProcess, hcb]

theorem caTick_single (now w : Int) (a : List String) (l : Lead) (T : Int)
    (hst : l.status = "Callback") (hcb : l.callback_at = some T) :
    caTick now w a [l] =
      if T ≤ now + w then
        (if T < now - staleCutoffMs then (a, [])
         else if dedupKey l.id T ∈ a then (a, [])
         else (dedupKey l.id T :: a,
               [AlertEv.record (dedupKey l.id T), AlertEv.emit (dedupKey l.id T)]))
      else (a, []) := by
  by_cases hd : T ≤ now + w
  · have hc : caCandidate now w l = true := by
      simp [caCandidate, hst, hcb, hd]
    rw [if_pos hd]
    unfold caTick caQuery
    rw [List.filter_cons, if_pos hc]
    simp only [List.filter_nil, sortByTime, insertByTime, List.take]
    exact caProcess_single now a l T hcb
  · have hc : ¬ caCandidate now w l = true := by
      simp [caCandidate, hcb, hd]
    rw [if_neg hd]
    unfold caTick caQuery
    rw [List.filter_cons, if_neg hc]
    rfl

theorem caRun_after_seen (w : Int) (ns : List Int) (a : List String) (l : Lead) (T : Int)
    (hst : l.status = "Callback") (hcb : l.callback_at = some T)
    (hmem : dedupKey l.id T ∈ a) :
    caRunEvents w ns a [l] = ns.map (fun _ => []) := by
  induction ns with
  | nil => rfl
  | cons n rest ih =>
    have h1 : caTick n w a [l] = (a, []) := by
      rw [caTick_single n w a l T hst hcb]
      by_cases hd : T ≤ n + w
      · rw [if_pos hd]
        by_cases hstale : T < n - staleCutoffMs
        · rw [if_pos hstale]
        · rw [if_neg hstale, if_pos hmem]
      · rw [if_neg hd]
    rw [caRunEvents, h1]
    simp only [List.map_cons]
    exact congrArg (List.cons []) ih

/-- Counterexample for C3: the inline leads-page tick has no stale cutoff;
a candidate whose callback_at lies 25 hours behind now, far beyond the 24
hour staleCutoff, is alerted and its dedup key recorded on that very
tick. -/
theorem c3_counterexample :
    (0 : Int) < 90000000 - staleCutoffMs ∧
    lpTick 90000000 [] [staleLead] =
      (["L9:0"], [AlertEv.record "L9:0", AlertEv.emit "L9:0"]) := by
  decide

/-- Claim C3 amended: the global CallbackAlerts tick honours the stale
cutoff: every record or emit event of a tick belongs to a candidate lead
whose status is Callback, whose callback_at is within the due window and
not more than staleCutoff behind now, and whose dedup key was not yet
recorded; stale candidates are therefore never alerted nor recorded by
this tick. The inline leads-page tick lacks the cutoff entirely. -/
theorem c3_amended_stale_skip (now w : Int) (alerted : List String) (leads : List Lead)
    (ev : AlertEv) (hev : ev ∈ (caTick now w alerted leads).2) :
    ∃ l t, l ∈ leads ∧ l.status = "Callback" ∧ l.callback_at = some t ∧
      t ≤ now + w ∧ ¬ t < now - staleCutoffMs ∧ dedupKey l.id t ∉ alerted ∧
      (ev = AlertEv.record (dedupKey l.id t) ∨ ev = AlertEv.emit (dedupKey l.id t)) := by
  obtain ⟨l, t, hmem, hcb, hstale, hnm, hform⟩ := caProcess_sound now alerted _ ev hev
  obtain ⟨hin, hcand⟩ := mem_caQuery hmem
  have hsplit := hcand
  unfold caCandidate at hsplit
  rw [hcb] at hsplit
  simp only [Bool.and_eq_true, decide_eq_true_eq] at hsplit
  exact ⟨l, t, hin, hsplit.1, hcb, hsplit.2, hstale, hnm, hform⟩

/-- Witness for the amended C3: a fresh, due candidate is emitted and the
soundness conclusion holds for that event. -/
theorem c3_amended_witness :
    AlertEv.emit "L2:100000" ∈ (caTick 50000 60000 [] [freshLead]).2 ∧
    (∃ l t, l ∈ [freshLead] ∧ l.status = "Callback" ∧ l.callback_at = some t ∧
      t ≤ 50000 + 60000 ∧ ¬ t < 50000 - staleCutoffMs ∧
      dedupKey l.id t ∉ ([] : List String) ∧
      (AlertEv.emit "L2:100000" = AlertEv.record (dedupKey l.id t) ∨
       AlertEv.emit "L2:100000" = AlertEv.emit (dedupKey l.id t))) :=
  ⟨by decide,
   c3_amended_stale_skip 50000 60000 [] [freshLead] (AlertEv.emit "L2:100000") (by decide)⟩

/-- Counterexample for C4: for a lead whose due timestamp is already more
than staleCutoff behind now at the first tick where it enters the due
window, the CallbackAlerts tick emits zero alerts, not exactly one, even
though the dedup key is unrecorded. -/
theorem c4_counterexample :
    staleLead.callback_at = some 0 ∧
    (0 : Int) ≤ 90000000 + 60000 ∧
    ("L9:0" : String) ∉ ([] : List String) ∧
    caRunEvents 60000 [90000000] [] [staleLead] = [[]] := by
  decide

/-- Claim C4 amended: for a lead that is the sole candidate, with a fixed
due timestamp T that is within staleCutoff of now at the first tick whose
window reaches T, the run of CallbackAlerts ticks emits zero alerts on
every earlier tick, records the dedup key and then emits exactly one alert
on that first due tick (record strictly before emit in the trace), and
emits zero alerts on every later tick, even after now passes T. -/
theorem c4_amended_single_lead (w : Int) (l : Lead) (T : Int)
    (pre post : List Int) (n0 : Int)
    (hst : l.status = "Callback") (hcb : l.callback_at = some T)
    (hpre : ∀ n ∈ pre, ¬ T ≤ n + w)
    (hdue : T ≤ n0 + w) (hfresh : ¬ T < n0 - staleCutoffMs) :
    caRunEvents w (pre ++ n0 :: post) [] [l] =
      pre.map (fun _ => []) ++
        [AlertEv.record (dedupKey l.id T), AlertEv.emit (dedupKey l.id T)] ::
          post.map (fun _ => []) := by
  induction pre with
  | nil =>
    have h1 : caTick n0 w [] [l] =
        (([dedupKey l.id T] : List String),
         [AlertEv.record (dedupKey l.id T), AlertEv.emit (dedupKey l.id T)]) := by
      rw [caTick_single n0 w [] l T hst hcb, if_pos hdue, if_neg hfresh,
        if_neg (List.not_mem_nil (dedupKey l.id T))]
    simp only [List.nil_append, List.map_nil, caRunEvents, h1]
    exact congrArg _ (caRun_after_seen w post [dedupKey l.id T] l T hst hcb
      (List.mem_singleton.mpr rfl))
  | cons n ns ih =>
    have h1 : caTick n w [] [l] = ([], []) := by
      rw [caTick_single n w [] l T hst hcb,
        if_neg (hpre n (List.mem_cons_self n ns))]
    simp only [List.cons_append, caRunEvents, h1, List.map_cons]
    exact congrArg (List.cons []) (ih (fun m hm => hpre m (List.mem_cons_of_mem n hm)))

/-- Witness for the amended C4: one tick before the window, the first due
tick, one tick after; the trace shows record before emit on the due tick
only. -/
theorem c4_amended_witness :
    (freshLead.status = "Callback" ∧ freshLead.callback_at = some 100000 ∧
     (∀ n ∈ [(0 : Int)], ¬ (100000 : Int) ≤ n + 60000) ∧
     (100000 : Int) ≤ 50000 + 60000 ∧ ¬ (100000 : Int) < 50000 - staleCutoffMs) ∧
    caRunEvents 60000 ([0] ++ 50000 :: [200000]) [] [freshLead] =
      [(0 : Int)].map (fun _ => []) ++
        [AlertEv.record (dedupKey freshLead.id 100000), AlertEv.emit (dedupKey freshLead.id 100000)] ::
          [(200000 : Int)].map (fun _ => []) :=
  ⟨⟨rfl, rfl, by decide, by decide, by decide⟩,
   c4_amended_single_lead 60000 freshLead 100000 [0] [200000] 50000 rfl rfl
     (by decide) (by decide) (by decide)⟩

/-- Claim C5: on every tick of either scheduler loop, at most one
notification is emitted: the trace is either empty or exactly one record
followed by one emit, after which no further candidate is processed. -/
theorem c5_at_most_one_alert_per_tick (now w : Int) (alerted : List String)
    (leads : List Lead) :
    emitCount (caTick now w alerted leads).2 ≤ 1 ∧
    emitCount (lpTick now alerted leads).2 ≤ 1 ∧
    ((caTick now w alerted leads).2 = [] ∨
      ∃ k, (caTick now w alerted leads).2 = [AlertEv.record k, AlertEv.emit k]) ∧
    ((lpTick now alerted leads).2 = [] ∨
      ∃ k, (lpTick now alerted leads).2 = [AlertEv.record k, AlertEv.emit k]) := by
  have hca := caProcess_shape now alerted (caQuery now w leads)
  have hlp := lpProcess_shape alerted (lpQuery now leads)
  exact ⟨emitCount_of_shape hca, emitCount_of_shape hlp, hca, hlp⟩

end CrmApp
